import Mathlib

/-!
Verification development for the `bevy_tangled` networking facade
(`src/lib.rs`).

Modelling conventions:
* Byte buffers (`Vec<u8>`, `&[u8]`) are `List Nat`.
* The external serializer (`bitcode::encode` / `bitcode::decode`) and the
  external compressor (`lz4_flex::compress_prepend_size` /
  `decompress_size_prepended`) are third-party crates, so the codec
  definitions are parametrized over them; theorems assume only their
  round-trip contracts and witnesses instantiate them with concrete
  functions satisfying those contracts.
* A Rust `panic!` (an `unwrap` on `None`/`Err`) is made explicit as the
  `UnpackResult.panicked` outcome: the Rust function has no error channel,
  so every failure aborts.
* The backend drivers (`ip.rs`, `steam.rs`) are repository modules not
  present under `src/`; they are modelled from the spec as records of the
  capability-contract observations the facade consults.
* Feature configurations: `NoSteam.Client` embeds the build with
  `tangled` (and without `steam`), the configuration that has an unbound
  state; `WithSteam.Client` embeds the build with both `steam` and
  `tangled` enabled.
-/

/-- Per-call compression request, `enum Compression` in `src/lib.rs`. -/
inductive Compression
  | Compressed
  | Uncompressed
  deriving DecidableEq, Repr

/-- Per-call reliability request, `enum Reliability` in `src/lib.rs`. -/
inductive Reliability
  | Reliable
  | Unreliable
  deriving DecidableEq, Repr

/-- Opaque 64-bit peer identifier, `struct PeerId(pub u64)`. -/
structure PeerId where
  raw : Nat
  deriving DecidableEq, Repr

/-- Result of `unpack`: either the decoded value, or `panicked`, which
embeds a Rust `unwrap` failure (the source function returns `T` directly
and aborts on any malformed input). -/
inductive UnpackResult (α : Type) where
  | ok (v : α)
  | panicked
  deriving DecidableEq, Repr

/-- Embedding of `pack` in the `compress`-feature build: serialize with
`enc` (standing for `bitcode::encode`); on `Compressed`, compress with
`compress` (standing for `lz4_flex::compress_prepend_size`) and push a
trailing `1` byte; on `Uncompressed`, push a trailing `0` byte. -/
def pack {α : Type} (enc : α → List Nat) (compress : List Nat → List Nat)
    (v : α) (c : Compression) : List Nat :=
  match c with
  | Compression.Compressed => compress (enc v) ++ [1]
  | Compression.Uncompressed => enc v ++ [0]

/-- Embedding of `pack` in the build without the `compress` feature: the
serialized bytes are emitted with no marker byte at all. -/
def packNoCompress {α : Type} (enc : α → List Nat) (v : α)
    (_c : Compression) : List Nat :=
  enc v

/-- Embedding of `unpack` in the `compress`-feature build. The source
reads `*data.last().unwrap()`: an empty buffer panics. If the last byte
equals 1 the remainder is decompressed (`decompress_size_prepended`
standing behind `decompress`, its `unwrap` panicking on failure) and then
decoded; any other last byte is stripped and the remainder decoded
directly. `dec` stands for `bitcode::decode`, whose `unwrap` panics on
failure. -/
def unpack {α : Type} (dec : List Nat → Option α)
    (decompress : List Nat → Option (List Nat)) (data : List Nat) :
    UnpackResult α :=
  match data.getLast? with
  | none => UnpackResult.panicked
  | some b =>
    if b = 1 then
      match decompress data.dropLast with
      | none => UnpackResult.panicked
      | some plain =>
        match dec plain with
        | none => UnpackResult.panicked
        | some v => UnpackResult.ok v
    else
      match dec data.dropLast with
      | none => UnpackResult.panicked
      | some v => UnpackResult.ok v

/-- Embedding of `unpack` in the build without the `compress` feature:
the whole buffer is decoded directly, the `unwrap` panicking on failure. -/
def unpackNoCompress {α : Type} (dec : List Nat → Option α)
    (data : List Nat) : UnpackResult α :=
  match dec data with
  | none => UnpackResult.panicked
  | some v => UnpackResult.ok v

/-- Native error of the `tangled` crate (`tangled::NetError`), external
to this repository; modelled as an opaque code. -/
structure TangledNetError where
  code : Nat
  deriving DecidableEq, Repr

/-- Native error of the `steamworks` crate (`steamworks::SteamError`),
external to this repository; modelled as an opaque code. -/
structure SteamError where
  code : Nat
  deriving DecidableEq, Repr

/-- Unified facade failure type, `enum NetError` in `src/lib.rs`: one
variant per backend, each wrapping that backend's native error. -/
inductive NetError where
  | tangled (e : TangledNetError)
  | steam (e : SteamError)
  deriving DecidableEq, Repr

/-- Embedding of `impl From<tangled::NetError> for NetError`. -/
def NetError.fromTangledNative (e : TangledNetError) : NetError :=
  NetError.tangled e

/-- Embedding of `impl From<SteamError> for NetError`. -/
def NetError.fromSteamNative (e : SteamError) : NetError :=
  NetError.steam e

/-- Facade mode, `enum ClientMode` in `src/lib.rs`. -/
inductive ClientMode where
  | steam
  | ip
  | unbound
  deriving DecidableEq, Repr

/-- Stand-in for `steamworks::networking_types::NetConnectionRealTimeInfo`,
an external telemetry payload whose contents the facade never inspects. -/
structure RTInfo where
  val : Nat
  deriving DecidableEq, Repr

/-- Modelled from the spec: the direct-socket backend driver (`IpClient`,
module `ip.rs`, not present under `src/`) as a record of the
capability-contract observations the facade consults. Typed payloads are
represented by their encoded bytes. The backend's `update` step is passed
to the facade separately as a state-transition function. -/
structure IpClient where
  myId : PeerId
  hostId : PeerId
  isHostB : Bool
  peerLen : Nat
  isConnectedB : Bool
  sendF : PeerId → List Nat → Reliability → Compression → Except NetError Unit
  broadcastF : List Nat → Reliability → Compression → Except NetError Unit
  sendRawF : PeerId → List Nat → Reliability → Except NetError Unit
  broadcastRawF : List Nat → Reliability → Except NetError Unit

/-- Modelled from the spec: the relay/matchmaking backend driver
(`SteamClient`, module `steam.rs`, not present under `src/`) as a record
of the capability observations the facade consults; `info` is the
per-connection telemetry snapshot `NetworkingInfo` carries in the
`steam`-feature build. -/
structure SteamClient where
  infoF : List (PeerId × RTInfo)
  sendF : PeerId → List Nat → Reliability → Compression → Except NetError Unit
  broadcastF : List Nat → Reliability → Compression → Except NetError Unit

namespace NoSteam

/-- NetworkingInfo in the build without the `steam` feature: the source
declares `pub struct NetworkingInfo(...)` with no field in that
configuration, so the snapshot is a single constant value. -/
inductive NetworkingInfo where
  | mk
  deriving DecidableEq, Repr

/-- Facade state in the `tangled`-without-`steam` build: `struct Client`
holds only `ip_client: Option<IpClient>`. -/
structure Client where
  ip_client : Option IpClient

/-- Embedding of `Client::new()` in this build: `ip_client: None`, the
unbound facade. -/
def Client.new : Client := ⟨none⟩

/-- Embedding of `Client::send`: forward to the bound ip backend, else
(no `steam` feature) return `Ok(())`. -/
def Client.send (c : Client) (dest : PeerId) (data : List Nat)
    (r : Reliability) (cp : Compression) : Except NetError Unit :=
  match c.ip_client with
  | some ip => ip.sendF dest data r cp
  | none => Except.ok ()

/-- Embedding of `Client::broadcast` in this build. -/
def Client.broadcast (c : Client) (data : List Nat) (r : Reliability)
    (cp : Compression) : Except NetError Unit :=
  match c.ip_client with
  | some ip => ip.broadcastF data r cp
  | none => Except.ok ()

/-- Embedding of `Client::send_raw` in this build. -/
def Client.send_raw (c : Client) (dest : PeerId) (data : List Nat)
    (r : Reliability) : Except NetError Unit :=
  match c.ip_client with
  | some ip => ip.sendRawF dest data r
  | none => Except.ok ()

/-- Embedding of `Client::broadcast_raw` in this build. -/
def Client.broadcast_raw (c : Client) (data : List Nat) (r : Reliability) :
    Except NetError Unit :=
  match c.ip_client with
  | some ip => ip.broadcastRawF data r
  | none => Except.ok ()

/-- Embedding of `Client::update` in this build: if an ip backend is
bound, run its update step `ipU`, DISCARD its reported fault and return
`Ok(())`; otherwise return `Ok(())`. `UResult` without the `steam`
feature is `Result<(), ()>`, embedded as `Except Unit Unit`. -/
def Client.update (ipU : IpClient → IpClient × Option NetError)
    (c : Client) : Client × Except Unit Unit :=
  match c.ip_client with
  | some ip => (⟨some (ipU ip).1⟩, Except.ok ())
  | none => (c, Except.ok ())

/-- Embedding of `Client::info` in this build: the fieldless
`NetworkingInfo()` constant. -/
def Client.info (_c : Client) : NetworkingInfo := NetworkingInfo.mk

/-- Embedding of `Client::my_id` in this build: the bound ip backend's
id, else `PeerId(0)`. -/
def Client.my_id (c : Client) : PeerId :=
  match c.ip_client with
  | some ip => ip.myId
  | none => ⟨0⟩

/-- Embedding of `Client::host_id` in this build. -/
def Client.host_id (c : Client) : PeerId :=
  match c.ip_client with
  | some ip => ip.hostId
  | none => ⟨0⟩

/-- Embedding of `Client::is_host` in this build: the bound ip backend's
answer, else `false`. -/
def Client.is_host (c : Client) : Bool :=
  match c.ip_client with
  | some ip => ip.isHostB
  | none => false

/-- Embedding of `Client::peer_len` in this build. -/
def Client.peer_len (c : Client) : Nat :=
  match c.ip_client with
  | some ip => ip.peerLen
  | none => 0

/-- Embedding of `Client::is_connected` in this build. -/
def Client.is_connected (c : Client) : Bool :=
  match c.ip_client with
  | some ip => ip.isConnectedB
  | none => false

/-- Embedding of `Client::mode` in this build. -/
def Client.mode (c : Client) : ClientMode :=
  match c.ip_client with
  | some _ => ClientMode.ip
  | none => ClientMode.unbound

end NoSteam

namespace WithSteam

/-- Facade state in the build with both `steam` and `tangled` features:
`struct Client` holds a `steam_client: SteamClient` and an
`ip_client: Option<IpClient>`. -/
structure Client where
  steam_client : SteamClient
  ip_client : Option IpClient

/-- Embedding of `Client::send` in this build: forward to the bound ip
backend if any, else to the steam client. -/
def Client.send (c : Client) (dest : PeerId) (data : List Nat)
    (r : Reliability) (cp : Compression) : Except NetError Unit :=
  match c.ip_client with
  | some ip => ip.sendF dest data r cp
  | none => c.steam_client.sendF dest data r cp

/-- Embedding of `Client::broadcast` in this build. -/
def Client.broadcast (c : Client) (data : List Nat) (r : Reliability)
    (cp : Compression) : Except NetError Unit :=
  match c.ip_client with
  | some ip => ip.broadcastF data r cp
  | none => c.steam_client.broadcastF data r cp

/-- Embedding of `Client::update` in this build: if an ip backend is
bound, run its update step `ipU`, discard its reported fault and return
`Ok(())`; otherwise run the steam client's update step `stU` and
propagate its fault with `?`. `UResult` with the `steam` feature is
`Result<(), SteamError>`, embedded as `Except SteamError Unit` — the
steam fault reaches the caller as the bare native error. -/
def Client.update (ipU : IpClient → IpClient × Option NetError)
    (stU : SteamClient → SteamClient × Option SteamError)
    (c : Client) : Client × Except SteamError Unit :=
  match c.ip_client with
  | some ip => ({ c with ip_client := some (ipU ip).1 }, Except.ok ())
  | none =>
    let s := stU c.steam_client
    ({ c with steam_client := s.1 },
      match s.2 with
      | some e => Except.error e
      | none => Except.ok ())

/-- Embedding of `Client::info` in this build: always
`self.steam_client.info()`, with no look at `ip_client`. -/
def Client.info (c : Client) : List (PeerId × RTInfo) :=
  c.steam_client.infoF

/-- Embedding of `Client::mode` in this build. -/
def Client.mode (c : Client) : ClientMode :=
  match c.ip_client with
  | some _ => ClientMode.ip
  | none => ClientMode.steam

end WithSteam

/-- C1: for every value `v` encodable by the codec and for both
compression requests, `unpack (pack v request) = v`, assuming the
round-trip contracts of the external serializer and compressor; the same
holds in the build without compression support. The witness instantiates
this at a zero-length payload, establishing the zero-length round-trip in
particular. -/
theorem unpack_pack_roundtrip {α : Type} (enc : α → List Nat)
    (dec : List Nat → Option α) (compress : List Nat → List Nat)
    (decompress : List Nat → Option (List Nat)) (v : α)
    (hdec : dec (enc v) = some v)
    (hcomp : decompress (compress (enc v)) = some (enc v)) :
    (∀ c, unpack dec decompress (pack enc compress v c) = UnpackResult.ok v)
    ∧ (∀ c, unpackNoCompress dec (packNoCompress enc v c) = UnpackResult.ok v) := by
  constructor
  · intro c
    cases c <;>
      simp [pack, unpack, List.getLast?_concat, List.dropLast_concat, hdec, hcomp]
  · intro c
    simp [packNoCompress, unpackNoCompress, hdec]

/-- C1 witness: the identity codec and identity compressor satisfy the
round-trip contracts, and the zero-length payload `[]` round-trips under
both compression requests in both builds. -/
theorem unpack_pack_roundtrip_witness :
    (∀ c, unpack (fun l => some l) (fun l => some l)
        (pack (fun l => l) (fun l => l) ([] : List Nat) c) = UnpackResult.ok [])
    ∧ (∀ c, unpackNoCompress (fun l => some l)
        (packNoCompress (fun l => l) ([] : List Nat) c) = UnpackResult.ok []) :=
  unpack_pack_roundtrip (fun l => l) (fun l => some l) (fun l => l)
    (fun l => some l) [] rfl rfl

/-- C2 counterexample: `unpack` panics (Rust `unwrap`) instead of
surfacing a decode fault — an empty buffer panics at the last-byte
inspection, a marker byte 1 over a corrupt compressed remainder panics at
decompression, and a trailing marker byte 2 (outside {0,1}) is not
treated as malformed at all: it is stripped and the remainder decoded as
uncompressed. -/
theorem unpack_malformed_panics_cex :
    unpack (fun l => some l) (fun l => some l) ([] : List Nat) = UnpackResult.panicked
    ∧ unpack (fun l => some l) (fun _ => none) [1] = UnpackResult.panicked
    ∧ unpack (fun l => some l) (fun l => some l) [5, 2] = UnpackResult.ok [5] := by
  refine ⟨rfl, rfl, ?_⟩
  decide

/-- C2 amended: `unpack` has no fault channel and panics on malformed
input — an empty buffer panics at the last-byte inspection; a marker
byte 1 whose remainder fails to decompress panics; undecodable bytes
panic at decode; and a trailing marker byte other than 1 (including
values outside {0,1}) is not treated as malformed: it is stripped and the
remainder deserialized directly. -/
theorem unpack_panics_not_faults {α : Type} (dec : List Nat → Option α)
    (decompress : List Nat → Option (List Nat)) (body : List Nat) (b : Nat)
    (hb : b ≠ 1) :
    unpack dec decompress [] = UnpackResult.panicked
    ∧ (decompress body = none →
        unpack dec decompress (body ++ [1]) = UnpackResult.panicked)
    ∧ unpack dec decompress (body ++ [b]) =
        (match dec body with
          | none => UnpackResult.panicked
          | some v => UnpackResult.ok v) := by
  refine ⟨rfl, ?_, ?_⟩
  · intro h
    simp [unpack, List.getLast?_concat, List.dropLast_concat, h]
  · simp [unpack, List.getLast?_concat, List.dropLast_concat, hb]

/-- C2 amended witness: with a decompressor that fails, the frame
`[3] ++ [1]` panics, and the frame `[3] ++ [2]` (marker outside {0,1})
decodes its body as uncompressed. -/
theorem unpack_panics_not_faults_witness :
    unpack (fun l => some l) (fun _ => none) (([3] : List Nat) ++ [1]) = UnpackResult.panicked
    ∧ unpack (fun l => some l) (fun _ => none) (([3] : List Nat) ++ [2]) = UnpackResult.ok [3] := by
  have h := unpack_panics_not_faults (fun l => some l) (fun _ => none) [3] 2 (by decide)
  exact ⟨h.2.1 rfl, h.2.2⟩

/-- C3: in the `compress`-feature build, `pack v Compressed` is the
compressed serialized bytes followed by a single trailing marker byte 1,
and `pack v Uncompressed` is the serialized bytes followed by a trailing
marker byte 0; in the build without compression support, `pack` emits
exactly the serialized bytes with no marker. -/
theorem pack_marker_layout {α : Type} (enc : α → List Nat)
    (compress : List Nat → List Nat) (v : α) :
    pack enc compress v Compression.Compressed = compress (enc v) ++ [1]
    ∧ pack enc compress v Compression.Uncompressed = enc v ++ [0]
    ∧ (∀ c, packNoCompress enc v c = enc v) :=
  ⟨rfl, rfl, fun _ => rfl⟩

/-- C10: in the `compress`-feature build, every output of `pack` is a
non-empty byte vector whose last byte is 0 or 1, so the last-byte
inspection in `unpack` never sees an empty buffer on any output of
`pack`. -/
theorem pack_nonempty_last_marker {α : Type} (enc : α → List Nat)
    (compress : List Nat → List Nat) (v : α) (c : Compression) :
    pack enc compress v c ≠ []
    ∧ ((pack enc compress v c).getLast? = some 0
        ∨ (pack enc compress v c).getLast? = some 1) := by
  cases c <;>
    simp [pack, List.getLast?_concat]

/-- Sample ip backend instance used by concrete witnesses and
counterexamples. -/
def sampleIp : IpClient :=
  ⟨⟨4⟩, ⟨7⟩, false, 2, true,
    fun _ _ _ _ => Except.ok (), fun _ _ _ => Except.ok (),
    fun _ _ _ => Except.ok (), fun _ _ => Except.ok ()⟩

/-- Sample steam backend instance with a non-empty telemetry snapshot,
used by concrete witnesses and counterexamples. -/
def sampleSteam : SteamClient :=
  ⟨[(⟨1⟩, ⟨9⟩)], fun _ _ _ _ => Except.ok (), fun _ _ _ => Except.ok ()⟩

/-- C4: on the freshly constructed, never-bound facade (the
`tangled`-without-`steam` build, `ip_client = None`), `send`,
`broadcast`, `send_raw`, `broadcast_raw` and `update` all return
success, `update` leaves the state unchanged, `peer_len()` is 0 and
`is_connected()` is false. -/
theorem client_new_unbound_noop_defaults (dest : PeerId) (data : List Nat)
    (r : Reliability) (cp : Compression)
    (ipU : IpClient → IpClient × Option NetError) :
    NoSteam.Client.send NoSteam.Client.new dest data r cp = Except.ok ()
    ∧ NoSteam.Client.broadcast NoSteam.Client.new data r cp = Except.ok ()
    ∧ NoSteam.Client.send_raw NoSteam.Client.new dest data r = Except.ok ()
    ∧ NoSteam.Client.broadcast_raw NoSteam.Client.new data r = Except.ok ()
    ∧ NoSteam.Client.update ipU NoSteam.Client.new = (NoSteam.Client.new, Except.ok ())
    ∧ NoSteam.Client.peer_len NoSteam.Client.new = 0
    ∧ NoSteam.Client.is_connected NoSteam.Client.new = false :=
  ⟨rfl, rfl, rfl, rfl, rfl, rfl, rfl⟩

/-- C5: on the freshly constructed, never-bound facade the code reports
`my_id() = host_id() = PeerId(0)` but `is_host()` returns FALSE, against
the degenerate single-node convention the spec states (and against the
`ClientTypeRef::None` implementation of the same trait method, which
returns true). -/
theorem client_new_isHost_false_ids_equal :
    NoSteam.Client.my_id NoSteam.Client.new = NoSteam.Client.host_id NoSteam.Client.new
    ∧ NoSteam.Client.is_host NoSteam.Client.new = false :=
  ⟨rfl, rfl⟩

/-- C6: the equivalence `is_host() = true ↔ my_id() = host_id()` FAILS
on the never-bound facade: both ids are `PeerId(0)` yet `is_host()`
returns false. -/
theorem client_isHost_iff_ids_fails_unbound :
    ¬ (NoSteam.Client.is_host NoSteam.Client.new = true
        ↔ NoSteam.Client.my_id NoSteam.Client.new = NoSteam.Client.host_id NoSteam.Client.new) := by
  decide

/-- C7 counterexample: with the ip backend bound and its update step
reporting a fault, `Client::update` discards the fault and returns
success — the backend-reported failure is silently swallowed. -/
theorem client_update_swallows_ip_fault_cex :
    WithSteam.Client.update (fun ip => (ip, some (NetError.tangled ⟨3⟩)))
      (fun s => (s, none)) ⟨sampleSteam, some sampleIp⟩
      = (⟨sampleSteam, some sampleIp⟩, Except.ok ()) := rfl

/-- C7 amended: when the ip backend is bound, `Client::update` runs the
backend step but discards its reported fault and returns success; when no
ip backend is bound, the steam client's update fault is surfaced to the
caller. In both cases the binding is unchanged (the facade stays in the
same mode, forwarding to the same backend). -/
theorem client_update_fault_handling
    (ipU : IpClient → IpClient × Option NetError)
    (stU : SteamClient → SteamClient × Option SteamError)
    (c : WithSteam.Client) :
    (∀ ip, c.ip_client = some ip →
      (WithSteam.Client.update ipU stU c).2 = Except.ok ()
      ∧ (WithSteam.Client.update ipU stU c).1.ip_client = some (ipU ip).1
      ∧ WithSteam.Client.mode (WithSteam.Client.update ipU stU c).1 = ClientMode.ip)
    ∧ (c.ip_client = none →
      (WithSteam.Client.update ipU stU c).1.ip_client = none
      ∧ (WithSteam.Client.update ipU stU c).2 =
          (match (stU c.steam_client).2 with
            | some e => Except.error e
            | none => Except.ok ())) := by
  constructor
  · intro ip h
    simp [WithSteam.Client.update, WithSteam.Client.mode, h]
  · intro h
    simp [WithSteam.Client.update, h]

/-- C7 amended witness: concretely, a bound ip backend whose update
reports a tangled fault yields `Ok(())` from the facade, while an
unbound-ip facade surfaces the steam update fault `SteamError 6`. -/
theorem client_update_fault_handling_witness :
    (WithSteam.Client.update (fun ip => (ip, some (NetError.tangled ⟨5⟩)))
        (fun s => (s, some ⟨6⟩)) ⟨sampleSteam, some sampleIp⟩).2 = Except.ok ()
    ∧ (WithSteam.Client.update (fun ip => (ip, some (NetError.tangled ⟨5⟩)))
        (fun s => (s, some ⟨6⟩)) ⟨sampleSteam, none⟩).2 = Except.error ⟨6⟩ := by
  have h1 := client_update_fault_handling
    (fun ip => (ip, some (NetError.tangled ⟨5⟩))) (fun s => (s, some ⟨6⟩))
    ⟨sampleSteam, some sampleIp⟩
  have h2 := client_update_fault_handling
    (fun ip => (ip, some (NetError.tangled ⟨5⟩))) (fun s => (s, some ⟨6⟩))
    ⟨sampleSteam, none⟩
  exact ⟨(h1.1 sampleIp rfl).1, (h2.2 rfl).2⟩

/-- C8 counterexample: with both features built and the ip backend bound
(mode Ip), `info()` does not return an absence value for the
telemetry-less bound backend: it returns the steam client's non-empty
snapshot. -/
theorem client_info_ignores_bound_ip_cex :
    WithSteam.Client.mode ⟨sampleSteam, some sampleIp⟩ = ClientMode.ip
    ∧ WithSteam.Client.info ⟨sampleSteam, some sampleIp⟩ = [(⟨1⟩, ⟨9⟩)]
    ∧ WithSteam.Client.info ⟨sampleSteam, some sampleIp⟩ ≠ [] := by
  refine ⟨rfl, rfl, ?_⟩
  simp [WithSteam.Client.info, sampleSteam]

/-- C8 amended: whenever the `steam` feature is built in, `info()`
returns the steam client's telemetry snapshot — read fresh from the
current state on every call, never cached — regardless of which backend
is bound; in the build without `steam`, `info()` is the constant
fieldless `NetworkingInfo` value. -/
theorem client_info_always_steam (c : WithSteam.Client) (ct : NoSteam.Client) :
    WithSteam.Client.info c = c.steam_client.infoF
    ∧ NoSteam.Client.info ct = NoSteam.NetworkingInfo.mk :=
  ⟨rfl, rfl⟩

/-- C9 counterexample: a failure returned by `Client::update` is NOT a
`NetError` value — it is the steam backend's native error, unwrapped:
`UResult` is `Result<(), SteamError>`, so the fault reaches the caller
as the bare `SteamError 5` with no backend-identifying tag. -/
theorem update_error_bare_steam_cex :
    (WithSteam.Client.update (fun ip => (ip, none)) (fun s => (s, some ⟨5⟩))
      ⟨sampleSteam, none⟩).2 = Except.error (⟨5⟩ : SteamError) := rfl

/-- C9 amended: failures returned by `send` and `broadcast` are the
single discriminated type `NetError`; converting a tangled native error
yields `NetError::Tangled` carrying that exact value and converting a
steam native error yields `NetError::Steam` carrying that exact value
(both conversions injective). `update`, however, returns the steam
backend's native `SteamError` unwrapped rather than a `NetError`. -/
theorem netError_tagging (et : TangledNetError) (es : SteamError)
    (c : WithSteam.Client) (dest : PeerId) (data : List Nat)
    (r : Reliability) (cp : Compression)
    (ipU : IpClient → IpClient × Option NetError)
    (stU : SteamClient → SteamClient × Option SteamError) :
    NetError.fromTangledNative et = NetError.tangled et
    ∧ NetError.fromSteamNative es = NetError.steam es
    ∧ (∀ e1 e2, NetError.fromTangledNative e1 = NetError.fromTangledNative e2 → e1 = e2)
    ∧ (∀ e1 e2, NetError.fromSteamNative e1 = NetError.fromSteamNative e2 → e1 = e2)
    ∧ (WithSteam.Client.send c dest data r cp = Except.ok ()
        ∨ ∃ e : NetError, WithSteam.Client.send c dest data r cp = Except.error e)
    ∧ (c.ip_client = none → (stU c.steam_client).2 = some es →
        (WithSteam.Client.update ipU stU c).2 = Except.error es) := by
  refine ⟨rfl, rfl, ?_, ?_, ?_, ?_⟩
  · intro e1 e2 h
    simpa [NetError.fromTangledNative] using h
  · intro e1 e2 h
    simpa [NetError.fromSteamNative] using h
  · cases hs : WithSteam.Client.send c dest data r cp with
    | ok u => cases u; exact Or.inl rfl
    | error e => exact Or.inr ⟨e, rfl⟩
  · intro h1 h2
    simp [WithSteam.Client.update, h1, h2]

/-- C9 amended witness: the tangled conversion wraps the exact value,
and a concrete unbound-ip facade whose steam update fails surfaces the
bare native `SteamError 8`. -/
theorem netError_tagging_witness :
    NetError.fromTangledNative ⟨2⟩ = NetError.tangled ⟨2⟩
    ∧ (WithSteam.Client.update (fun ip => (ip, none)) (fun s => (s, some ⟨8⟩))
        ⟨sampleSteam, none⟩).2 = Except.error (⟨8⟩ : SteamError) := by
  have h := netError_tagging ⟨2⟩ ⟨8⟩ ⟨sampleSteam, none⟩ ⟨0⟩ []
    Reliability.Reliable Compression.Uncompressed
    (fun ip => (ip, none)) (fun s => (s, some ⟨8⟩))
  exact ⟨h.1, h.2.2.2.2.2 rfl rfl⟩
